import Mathlib

/-!
Verification of the projeto_rodovias pipeline: a shallow embedding of
`coleta_dados.baixar_dados_dnit` (fetcher), the SQLite-backed store
`streamlit_app.gerenciar_banco` / `exibir_historico`, and the processor
`streamlit_app.carregar_dados`, together with proofs of the contracts
stated in the specification.
-/

namespace Rodovias

/-! ### Tabular data model

A pandas DataFrame is embedded as a `Table`: flags recording whether the
`latitude` / `longitude` columns are present, and a list of rows.  A cell is
either an actual number, a string that parses as a number, a string that does
not, or a missing value (NaN).  `pd.to_numeric(_, errors='coerce')` maps the
unparseable cases to NaN. -/

inductive Cell
  | num (x : Int)
  | strNum (x : Int)
  | strBad (s : String)
  | na
  deriving DecidableEq

/-- Model of `pd.to_numeric(c, errors='coerce')` on one cell: numbers and numeric
strings become numbers, anything else becomes NaN. -/
def toNumeric : Cell → Cell
  | .num x => .num x
  | .strNum x => .num x
  | .strBad _ => .na
  | .na => .na

/-- Whether a cell is NaN (pandas "missing"). -/
def isNA : Cell → Bool
  | .na => true
  | _ => false

structure Row where
  lat : Cell
  lon : Cell
  rest : List Cell
  deriving DecidableEq

structure Table where
  hasLat : Bool
  hasLon : Bool
  rows : List Row
  deriving DecidableEq

/-! ### Processor: `carregar_dados` (streamlit_app.py, lines 88-99)

```python
def carregar_dados(_df):
    try:
        if 'latitude' in _df.columns and 'longitude' in _df.columns:
            _df['latitude'] = pd.to_numeric(_df['latitude'], errors='coerce')
            _df['longitude'] = pd.to_numeric(_df['longitude'], errors='coerce')
        return _df.dropna(subset=['latitude', 'longitude'], how='all')
    except Exception as e:
        logging.error(...)
        return _df
```

The coercion step only runs when both columns are present; `dropna` with a
`subset` naming an absent column raises `KeyError`, which the catch-all
swallows, returning the input. -/

/-- Coerce the two coordinate cells of one row. -/
def coerceRow (r : Row) : Row :=
  { r with lat := toNumeric r.lat, lon := toNumeric r.lon }

/-- The coercion step of `carregar_dados`: runs only when both coordinate
columns are present. -/
def coercao (df : Table) : Table :=
  if df.hasLat && df.hasLon then
    { df with rows := df.rows.map coerceRow }
  else df

/-- Row-retention predicate of `dropna(..., how='all')`: keep a row unless
both coordinate cells are NaN. -/
def keepRow (r : Row) : Bool :=
  !(isNA r.lat && isNA r.lon)

/-- Model of `df.dropna(subset=['latitude','longitude'], how='all')`: raises
`KeyError` when either subset column is absent, otherwise drops exactly the
rows whose two coordinate cells are both NaN. -/
def dropnaLatLonAll (df : Table) : Except String Table :=
  if df.hasLat && df.hasLon then
    .ok { df with rows := df.rows.filter keepRow }
  else
    .error "KeyError"

/-- The processor `carregar_dados`: coerce (when possible), drop fully-unlocated rows, and
on any internal exception return the input unchanged. -/
def carregar_dados (df : Table) : Table :=
  match dropnaLatLonAll (coercao df) with
  | .ok out => out
  | .error _ => df

/-! ### Store: `gerenciar_banco` and `exibir_historico` (streamlit_app.py)

The SQLite database `database/rodovias.db` holds two tables:

```sql
CREATE TABLE dados_dnit (id INTEGER PRIMARY KEY AUTOINCREMENT,
  ano INTEGER NOT NULL, br INTEGER NOT NULL, dados TEXT NOT NULL,
  timestamp DATETIME DEFAULT CURRENT_TIMESTAMP, UNIQUE(ano, br))
CREATE TABLE historico (id INTEGER PRIMARY KEY AUTOINCREMENT,
  consulta TEXT NOT NULL, timestamp DATETIME DEFAULT CURRENT_TIMESTAMP)
```

Timestamps are modelled as a `Nat` wall clock passed to each write.
A connection carries the last committed state and the pending state of the
open transaction; `conn.close()` without `commit()` rolls back. -/

/-- One row of the `dados_dnit` table (the autoincrement id is omitted: no
claim mentions it). -/
structure DRecord where
  ano : Int
  br : Int
  dados : String
  timestamp : Nat
  deriving DecidableEq

/-- One row of the `historico` table. -/
structure HEntry where
  timestamp : Nat
  consulta : String
  deriving DecidableEq

structure DB where
  dados_dnit : List DRecord
  historico : List HEntry
  deriving DecidableEq

/-- The database right after the two `CREATE TABLE IF NOT EXISTS`. -/
def DB.empty : DB := ⟨[], []⟩

/-- One cell of `df.to_json(orient='records')` (the exact JSON shape is
irrelevant to every claim; the encoding only has to be a function of the
cell). -/
def serializeCell : Cell → String
  | .num x => toString x
  | .strNum x => "\"" ++ toString x ++ "\""
  | .strBad s => "\"" ++ s ++ "\""
  | .na => "null"

def serializeRow (r : Row) : String :=
  String.intercalate "," (serializeCell r.lat :: serializeCell r.lon :: r.rest.map serializeCell)

/-- Model of `df.to_json(orient='records')`. -/
def serializeTable (df : Table) : String :=
  "[" ++ String.intercalate ";" (df.rows.map serializeRow) ++ "]"

/-- The history description inserted by `gerenciar_banco`: `f"BR-{br} ({ano})"`. -/
def consultaDesc (br ano : Int) : String :=
  s!"BR-{br} ({ano})"

structure Conn where
  committed : DB
  pending : DB

/-- Model of `sqlite3.connect(...)`. -/
def Conn.openDB (db : DB) : Conn := ⟨db, db⟩

/-- Execute `INSERT OR REPLACE INTO dados_dnit (ano, br, dados) VALUES (?,?,?)` under
`UNIQUE(ano, br)`: any conflicting row is deleted and the new row inserted,
uncommitted. -/
def Conn.execReplaceDados (c : Conn) (a b : Int) (j : String) (t : Nat) : Conn :=
  { c with pending := { c.pending with
      dados_dnit :=
        (c.pending.dados_dnit.filter fun r => !(r.ano == a && r.br == b)) ++ [⟨a, b, j, t⟩] } }

/-- Execute `INSERT INTO historico (consulta) VALUES (?)`, uncommitted. -/
def Conn.execInsertHistorico (c : Conn) (s : String) (t : Nat) : Conn :=
  { c with pending := { c.pending with historico := c.pending.historico ++ [⟨t, s⟩] } }

/-- Execute `DELETE FROM dados_dnit`, uncommitted. -/
def Conn.execDeleteDados (c : Conn) : Conn :=
  { c with pending := { c.pending with dados_dnit := [] } }

/-- Execute `DELETE FROM historico`, uncommitted. -/
def Conn.execDeleteHistorico (c : Conn) : Conn :=
  { c with pending := { c.pending with historico := [] } }

/-- Model of `conn.commit()`. -/
def Conn.commitTx (c : Conn) : Conn := ⟨c.pending, c.pending⟩

/-- Model of `conn.close()`: an open uncommitted transaction is rolled back, so the
on-disk database is the committed state. -/
def Conn.closeDB (c : Conn) : DB := c.committed

/-- Failure injection for the storage layer: which of the three sqlite calls
of the upsert path raises `sqlite3.Error`. -/
structure SqlFail where
  failReplace : Bool
  failHistorico : Bool
  failCommit : Bool
  deriving DecidableEq

def SqlFail.clean : SqlFail := ⟨false, false, false⟩

/-- The upsert path `gerenciar_banco(df=df, ano=ano, br=br)` (streamlit_app.py, lines 60-83):
replace the record under (ano, br), append one history entry, commit.  On a
`sqlite3.Error` the except-branch raises `RuntimeError("Erro no banco de
dados")` and the `finally` closes the connection, rolling back the open
transaction.  Returns the Python outcome plus the final on-disk state. -/
def gerenciar_banco_upsert (f : SqlFail) (db : DB) (ano br : Int) (df : Table) (t : Nat) :
    Except String Unit × DB :=
  let c := Conn.openDB db
  if f.failReplace then (.error "Erro no banco de dados", c.closeDB) else
  let c := c.execReplaceDados ano br (serializeTable df) t
  if f.failHistorico then (.error "Erro no banco de dados", c.closeDB) else
  let c := c.execInsertHistorico (consultaDesc br ano) t
  if f.failCommit then (.error "Erro no banco de dados", c.closeDB) else
  (.ok (), c.commitTx.closeDB)

/-- The committed state after a failure-free `gerenciar_banco(df, ano, br)`. -/
def upsert (db : DB) (ano br : Int) (df : Table) (t : Nat) : DB :=
  (gerenciar_banco_upsert SqlFail.clean db ano br df t).2

/-- The clear path `gerenciar_banco(clear=True)` (streamlit_app.py, lines 54-58): delete
every row of both tables and commit. -/
def gerenciar_banco_clear (db : DB) : DB :=
  ((Conn.openDB db).execDeleteDados.execDeleteHistorico.commitTx).closeDB

/-- Insert one entry into a timestamp-descending list (later-arriving entries
go after existing ones with the same timestamp). -/
def insertByTs (e : HEntry) : List HEntry → List HEntry
  | [] => [e]
  | f :: fs => if f.timestamp < e.timestamp then e :: f :: fs else f :: insertByTs e fs

/-- Sort the history newest-first by timestamp (`ORDER BY timestamp DESC`). -/
def sortByTsDesc : List HEntry → List HEntry
  | [] => []
  | e :: es => insertByTs e (sortByTsDesc es)

/-- The query `SELECT * FROM historico ORDER BY timestamp DESC LIMIT n` of
`exibir_historico` (streamlit_app.py, line 108) generalised over the limit;
the code uses n = 10. -/
def recent_history (n : Nat) (db : DB) : List HEntry :=
  (sortByTsDesc db.historico).take n

/-- Number of stored `dados_dnit` records under key (a, b). -/
def keyCount (db : DB) (a b : Int) : Nat :=
  (db.dados_dnit.filter fun r => r.ano == a && r.br == b).length

/-- The `UNIQUE(ano, br)` invariant: no two stored records share a key. -/
def atMostOnePerKey (db : DB) : Prop :=
  db.dados_dnit.Pairwise fun r s => ¬(r.ano = s.ano ∧ r.br = s.br)

/-! ### Fetcher: `baixar_dados_dnit` (coleta_dados.py, lines 17-116)

The function validates `ano` and `br`, creates the two target directories,
issues one HTTP GET, writes the zip bytes to disk, extracts the first
`.csv` member, and parses it.  Every external interaction is driven by an
environment `Env`; the attempted side effects are returned as a trace.
`caminho_base` is fixed at its default `"data/raw"` (the only value the
repository uses). -/

/-- Boolean prefix test on character lists. -/
def isPrefixB : List Char → List Char → Bool
  | [], _ => true
  | _ :: _, [] => false
  | a :: as, b :: bs => a == b && isPrefixB as bs

/-- Boolean substring test on character lists, for Python's `in` on strings. -/
def isInfixB (pat : List Char) : List Char → Bool
  | [] => isPrefixB pat []
  | b :: bs => isPrefixB pat (b :: bs) || isInfixB pat bs

/-- Outcome of one `os.makedirs` call. -/
inductive MkdirOutcome
  | ok
  | permDenied
  | osFail
  deriving DecidableEq

/-- An HTTP response as far as the fetcher inspects it. -/
structure HttpResponse where
  status : Nat
  contentType : String
  deriving DecidableEq

/-- Outcome of `requests.get`. -/
inductive HttpResult
  | resp (r : HttpResponse)
  | timeout
  | connFail
  deriving DecidableEq

/-- Outcome of `pd.read_csv` on the extracted member. -/
inductive CsvOutcome
  | ok (df : Table)
  | parseFail
  | decodeFail
  deriving DecidableEq

/-- An attempted side effect of the fetcher, in order of occurrence. -/
inductive Effect
  | mkdirEff (path : String)
  | httpGetEff (url : String)
  | writeFileEff (path : String)
  | extractEff (member dir : String)
  deriving DecidableEq

/-- The external world as seen by one run of the fetcher. -/
structure Env where
  currentYear : Int
  mkdirZip : MkdirOutcome
  mkdirCsv : MkdirOutcome
  http : HttpResult
  writeOk : Bool
  zipNames : Option (List String)
  csv : CsvOutcome

/-- Errors of the fetcher, tagged by the Python exception class raised. -/
inductive FetchErr
  | valueError (msg : String)
  | runtimeError (msg : String)
  | fileNotFoundError (msg : String)
  | httpError (status : Nat)
  deriving DecidableEq

/-- The input validation of `baixar_dados_dnit` (coleta_dados.py, lines
22-26): `some e` is the raised `ValueError`, `none` lets the run continue. -/
def fetchValidate (ano br cy : Int) : Option FetchErr :=
  if (toString ano).length ≠ 4 ∨ ano < 2000 ∨ ano > cy then
    some (.valueError s!"Ano inválido: {ano}. Deve ser entre 2000 e {cy}.")
  else if br ≤ 0 ∨ br > 999 then
    some (.valueError s!"BR inválida: {br}. Deve ser um número entre 1 e 999.")
  else none

/-- The body of `baixar_dados_dnit` after validation: directory creation,
download, zip persistence, extraction, parse.  `zipNames = none` models
`zipfile.BadZipFile` on opening the archive. -/
def baixar_apos_validacao (ano br : Int) (env : Env) :
    Except FetchErr Table × List Effect :=
    let caminho_zip := s!"data/raw/{ano}/BR-{br}/arquivos_zip"
    let caminho_csv := s!"data/raw/{ano}/BR-{br}/arquivos_csv"
    let tr1 := [Effect.mkdirEff caminho_zip]
    match env.mkdirZip with
    | .permDenied => (.error (.runtimeError "Erro de permissão: verifique acesso às pastas."), tr1)
    | .osFail => (.error (.runtimeError "Erro crítico no sistema de arquivos."), tr1)
    | .ok =>
    let tr2 := tr1 ++ [Effect.mkdirEff caminho_csv]
    match env.mkdirCsv with
    | .permDenied => (.error (.runtimeError "Erro de permissão: verifique acesso às pastas."), tr2)
    | .osFail => (.error (.runtimeError "Erro crítico no sistema de arquivos."), tr2)
    | .ok =>
    let url := s!"https://servicos.dnit.gov.br/dadospnct/arquivos/pnct_{ano}_{br}.zip"
    let caminho_zip_completo := s!"{caminho_zip}/pnct_{ano}_{br}.zip"
    let tr3 := tr2 ++ [Effect.httpGetEff url]
    match env.http with
    | .timeout => (.error (.runtimeError "Conexão com o servidor demorou muito."), tr3)
    | .connFail => (.error (.runtimeError "Falha na conexão com a internet."), tr3)
    | .resp r =>
    if 400 ≤ r.status ∧ r.status ≤ 599 then
      if r.status = 404 then
        (.error (.fileNotFoundError s!"Dados para BR-{br} ({ano}) não encontrados no servidor."),
         tr3)
      else (.error (.httpError r.status), tr3)
    else if isInfixB "application/zip".data r.contentType.data = false then
      (.error (.valueError "O conteúdo baixado não é um arquivo ZIP válido."), tr3)
    else
      let tr4 := tr3 ++ [Effect.writeFileEff caminho_zip_completo]
      if env.writeOk = false then
        (.error (.runtimeError "Erro ao salvar arquivo no computador."), tr4)
      else
        match env.zipNames with
        | none => (.error (.runtimeError "Arquivo baixado está corrompido."), tr4)
        | some names =>
        if names.isEmpty then
          (.error (.runtimeError "Arquivo baixado está corrompido."), tr4)
        else
          match names.filter (fun m => m.endsWith ".csv") with
          | [] => (.error (.runtimeError "Formato inesperado do arquivo ZIP."), tr4)
          | m :: _ =>
            let tr5 := tr4 ++ [Effect.extractEff m caminho_csv]
            match env.csv with
            | .parseFail => (.error (.runtimeError "Formato inválido do arquivo CSV."), tr5)
            | .decodeFail =>
              (.error (.runtimeError "Problema com caracteres especiais no arquivo."), tr5)
            | .ok df => (.ok df, tr5)

/-- The fetcher `baixar_dados_dnit(ano, br)`: validate, then run the body;
the returned trace lists the attempted side effects in order. -/
def baixar_dados_dnit (ano br : Int) (env : Env) : Except FetchErr Table × List Effect :=
  match fetchValidate ano br env.currentYear with
  | some e => (.error e, [])
  | none => baixar_apos_validacao ano br env

/-! ### Concrete fixtures used by witnesses -/

/-- A row whose two coordinate cells are both unparseable as numeric. -/
def rowBoth : Row := ⟨.strBad "x", .na, []⟩

/-- A row with a numeric latitude but unparseable longitude. -/
def rowOne : Row := ⟨.num 5, .strBad "y", []⟩

/-- A fully located row. -/
def rowGood : Row := ⟨.num 1, .num 2, [.strNum 7]⟩

/-- A table having both coordinate columns. -/
def dfEx : Table := ⟨true, true, [rowBoth, rowOne, rowGood]⟩

/-- A table having a latitude column but no longitude column. -/
def dfNoLon : Table := ⟨true, false, [rowBoth, rowGood]⟩

/-- The store after storing datasets for BR-101 and BR-116 in year 2023, in
that order (the scenario of the history claim). -/
def dbEx : DB := upsert (upsert DB.empty 2023 101 dfEx 1) 2023 116 dfEx 2

/-- A fully healthy fetch environment. -/
def envBase : Env :=
  { currentYear := 2024, mkdirZip := .ok, mkdirCsv := .ok,
    http := .resp ⟨200, "application/zip"⟩, writeOk := true,
    zipNames := some ["dados.csv"], csv := .ok dfEx }

/-- The healthy environment except that the server answers HTTP 404. -/
def env404 : Env :=
  { envBase with http := .resp ⟨404, "text/html"⟩ }

/-! ### Processor lemmas and claim theorems -/

theorem toNumeric_idem (c : Cell) : toNumeric (toNumeric c) = toNumeric c := by
  cases c <;> rfl

theorem coerceRow_idem (r : Row) : coerceRow (coerceRow r) = coerceRow r := by
  simp [coerceRow, toNumeric_idem]

theorem carregar_dados_eq_of_cols (df : Table) (hlat : df.hasLat = true)
    (hlon : df.hasLon = true) :
    carregar_dados df = ⟨df.hasLat, df.hasLon, (df.rows.map coerceRow).filter keepRow⟩ := by
  simp [carregar_dados, coercao, dropnaLatLonAll, hlat, hlon]

theorem carregar_dados_eq_of_missing_col (df : Table)
    (h : (df.hasLat && df.hasLon) = false) : carregar_dados df = df := by
  simp [carregar_dados, coercao, dropnaLatLonAll, h]

theorem filter_map_coerce_idem (l : List Row) :
    (((l.map coerceRow).filter keepRow).map coerceRow).filter keepRow
      = (l.map coerceRow).filter keepRow := by
  induction l with
  | nil => rfl
  | cons x xs ih =>
    by_cases h : keepRow (coerceRow x) = true
    · simp only [List.map_cons, List.filter_cons, h, if_true, coerceRow_idem]
      rw [ih]
    · simp only [List.map_cons, List.filter_cons, h]
      simpa [h] using ih

/-- C3: with both coordinate columns present, a row whose latitude and
longitude are both unparseable as numeric is absent from the output of
`carregar_dados`, and a row with exactly one of the two missing/unparseable
is present (in coerced form). -/
theorem carregar_dados_drops_unlocated (df : Table) (hlat : df.hasLat = true)
    (hlon : df.hasLon = true) :
    (∀ r ∈ df.rows, isNA (toNumeric r.lat) = true → isNA (toNumeric r.lon) = true →
        coerceRow r ∉ (carregar_dados df).rows) ∧
    (∀ r ∈ df.rows, isNA (toNumeric r.lat) ≠ isNA (toNumeric r.lon) →
        coerceRow r ∈ (carregar_dados df).rows) := by
  rw [carregar_dados_eq_of_cols df hlat hlon]
  constructor
  · intro r _ h1 h2 hmem
    have hk := (List.mem_filter.1 hmem).2
    simp [keepRow, coerceRow, h1, h2] at hk
  · intro r hr hne
    refine List.mem_filter.2 ⟨List.mem_map_of_mem coerceRow hr, ?_⟩
    revert hne
    cases h1 : isNA (toNumeric r.lat) <;> cases h2 : isNA (toNumeric r.lon) <;>
      simp [keepRow, coerceRow, h1, h2]

/-- Witness for C3 at a concrete table. -/
theorem carregar_dados_drops_unlocated_witness :
    coerceRow rowBoth ∉ (carregar_dados dfEx).rows ∧
    coerceRow rowOne ∈ (carregar_dados dfEx).rows :=
  ⟨(carregar_dados_drops_unlocated dfEx rfl rfl).1 rowBoth (by decide) rfl rfl,
   (carregar_dados_drops_unlocated dfEx rfl rfl).2 rowOne (by decide) (by decide)⟩

/-- C4: `carregar_dados` is fail-open — it is a total function, and whenever
the internal `dropna` step fails, the input table is returned unmodified. -/
theorem carregar_dados_fail_open (df : Table) (e : String)
    (h : dropnaLatLonAll (coercao df) = .error e) :
    carregar_dados df = df := by
  unfold carregar_dados
  rw [h]

/-- Witness for C4: a table missing the longitude column makes the internal
`dropna` raise, and the input comes back unchanged. -/
theorem carregar_dados_fail_open_witness :
    dropnaLatLonAll (coercao dfNoLon) = .error "KeyError" ∧
    carregar_dados dfNoLon = dfNoLon :=
  ⟨rfl, carregar_dados_fail_open dfNoLon "KeyError" rfl⟩

/-- C5: `carregar_dados` is idempotent: a second run drops no further rows
and changes no values. -/
theorem carregar_dados_idem (df : Table) :
    carregar_dados (carregar_dados df) = carregar_dados df := by
  by_cases h : (df.hasLat && df.hasLon) = true
  · rw [Bool.and_eq_true] at h
    obtain ⟨hlat, hlon⟩ := h
    rw [carregar_dados_eq_of_cols df hlat hlon,
        carregar_dados_eq_of_cols
          ⟨df.hasLat, df.hasLon, (df.rows.map coerceRow).filter keepRow⟩ hlat hlon,
        filter_map_coerce_idem]
  · have h' : (df.hasLat && df.hasLon) = false := by simpa using h
    rw [carregar_dados_eq_of_missing_col df h', carregar_dados_eq_of_missing_col df h']

/-- C10: when exactly one of the two coordinate columns is present,
`carregar_dados` performs no coercion and returns the input with all rows
retained. -/
theorem carregar_dados_single_column (df : Table) (h : df.hasLat ≠ df.hasLon) :
    coercao df = df ∧ carregar_dados df = df := by
  have hb : (df.hasLat && df.hasLon) = false := by
    cases h1 : df.hasLat <;> cases h2 : df.hasLon <;> simp_all
  exact ⟨by simp [coercao, hb], carregar_dados_eq_of_missing_col df hb⟩

/-- Witness for C10 at a concrete one-column table. -/
theorem carregar_dados_single_column_witness :
    coercao dfNoLon = dfNoLon ∧ carregar_dados dfNoLon = dfNoLon :=
  carregar_dados_single_column dfNoLon (by decide)

/-! ### Store lemmas and claim theorems -/

theorem upsert_eq (db : DB) (a b : Int) (df : Table) (t : Nat) :
    upsert db a b df t =
      ⟨(db.dados_dnit.filter fun r => !(r.ano == a && r.br == b))
          ++ [⟨a, b, serializeTable df, t⟩],
       db.historico ++ [⟨t, consultaDesc b a⟩]⟩ := rfl

theorem filter_not_filter (p : DRecord → Bool) (l : List DRecord) :
    (l.filter fun r => !(p r)).filter p = [] := by
  induction l with
  | nil => rfl
  | cons x xs ih =>
    by_cases h : p x = true <;> simp [List.filter_cons, h, ih]

/-- C2: upserting twice under the same key leaves exactly one stored record
for that key, and the surviving record is the second write's (its `dados`
field is the second table's serialization, its timestamp the second write's
— the second write overwrites the first); exactly two history entries are
appended, and the at-most-one-record-per-key invariant is preserved by every
store operation (`upsert`, `clear`, and trivially the read-only history
query). -/
theorem store_unique_per_key (db : DB) (a b : Int) (df1 df2 : Table) (t1 t2 : Nat) :
    keyCount (upsert (upsert db a b df1 t1) a b df2 t2) a b = 1 ∧
    ((upsert (upsert db a b df1 t1) a b df2 t2).dados_dnit.filter
        fun r => r.ano == a && r.br == b) = [⟨a, b, serializeTable df2, t2⟩] ∧
    (upsert (upsert db a b df1 t1) a b df2 t2).historico.length
      = db.historico.length + 2 ∧
    (atMostOnePerKey db → atMostOnePerKey (upsert db a b df1 t1)) ∧
    atMostOnePerKey (gerenciar_banco_clear db) ∧
    atMostOnePerKey DB.empty := by
  refine ⟨?_, ?_, ?_, ?_, ?_, ?_⟩
  · simp [keyCount, upsert_eq, List.filter_append, filter_not_filter]
  · simp [upsert_eq, List.filter_append, filter_not_filter]
  · simp [upsert_eq]
  · intro hinv
    rw [upsert_eq]
    refine List.pairwise_append.2
      ⟨List.Pairwise.filter _ hinv, List.pairwise_singleton _ _, ?_⟩
    intro x hx y hy
    have hxf := (List.mem_filter.1 hx).2
    have hyv : y = (⟨a, b, serializeTable df1, t1⟩ : DRecord) := List.mem_singleton.1 hy
    subst hyv
    intro hcon
    simp [hcon.1, hcon.2] at hxf
  · exact List.Pairwise.nil
  · exact List.Pairwise.nil

/-- Witness for C2 at a concrete store, with two distinct tables: the
surviving record carries the second table's data, not the first's. -/
theorem store_unique_per_key_witness :
    keyCount (upsert (upsert DB.empty 2023 101 dfEx 1) 2023 101 dfNoLon 2) 2023 101 = 1 ∧
    ((upsert (upsert DB.empty 2023 101 dfEx 1) 2023 101 dfNoLon 2).dados_dnit.filter
        fun r => r.ano == 2023 && r.br == 101) = [⟨2023, 101, serializeTable dfNoLon, 2⟩] ∧
    (upsert (upsert DB.empty 2023 101 dfEx 1) 2023 101 dfNoLon 2).historico.length = 2 ∧
    atMostOnePerKey (upsert DB.empty 2023 101 dfEx 1) := by
  have h := store_unique_per_key DB.empty 2023 101 dfEx dfNoLon 1 2
  exact ⟨h.1, h.2.1, h.2.2.1, h.2.2.2.1 List.Pairwise.nil⟩

/-- C6: the two writes of the upsert path commit atomically.  A failure-free
run commits exactly the upsert result (record replaced and history entry
appended); any storage-layer failure yields `RuntimeError("Erro no banco de
dados")` and leaves the committed state unchanged. -/
theorem upsert_atomic (f : SqlFail) (db : DB) (a b : Int) (df : Table) (t : Nat) :
    ((gerenciar_banco_upsert f db a b df t).1 = .ok () →
        (gerenciar_banco_upsert f db a b df t).2 = upsert db a b df t) ∧
    ((gerenciar_banco_upsert f db a b df t).1 ≠ .ok () →
        (gerenciar_banco_upsert f db a b df t).1 = .error "Erro no banco de dados" ∧
        (gerenciar_banco_upsert f db a b df t).2 = db) := by
  rcases f with ⟨fr, fh, fc⟩
  cases fr <;> cases fh <;> cases fc <;>
    simp [gerenciar_banco_upsert, upsert, SqlFail.clean, Conn.openDB, Conn.closeDB,
      Conn.commitTx, Conn.execReplaceDados, Conn.execInsertHistorico]

/-- Witness for C6: a failure on the history insert reports the storage
error and rolls the record write back. -/
theorem upsert_atomic_witness :
    (gerenciar_banco_upsert ⟨false, true, false⟩ DB.empty 2023 101 dfEx 1).1
      = .error "Erro no banco de dados" ∧
    (gerenciar_banco_upsert ⟨false, true, false⟩ DB.empty 2023 101 dfEx 1).2 = DB.empty :=
  (upsert_atomic ⟨false, true, false⟩ DB.empty 2023 101 dfEx 1).2 (by
    simp [gerenciar_banco_upsert, Conn.openDB, Conn.closeDB, Conn.execReplaceDados])

/-- C7: `gerenciar_banco(clear=True)` empties both tables, so a subsequent
`recent_history 10` is empty and the record store holds zero records. -/
theorem clear_all_empties (db : DB) :
    recent_history 10 (gerenciar_banco_clear db) = [] ∧
    (gerenciar_banco_clear db).dados_dnit = [] :=
  ⟨rfl, rfl⟩

theorem insertByTs_eq_append (e : HEntry) :
    ∀ m : List HEntry, (∀ f ∈ m, ¬ f.timestamp < e.timestamp) →
      insertByTs e m = m ++ [e]
  | [], _ => rfl
  | f :: fs, h => by
    have hf : ¬ f.timestamp < e.timestamp := h f (List.mem_cons_self f fs)
    simp only [insertByTs, if_neg hf, List.cons_append]
    rw [insertByTs_eq_append e fs fun g hg => h g (List.mem_cons_of_mem f hg)]

theorem sortByTsDesc_of_ascending :
    ∀ l : List HEntry, l.Pairwise (fun u v => u.timestamp < v.timestamp) →
      sortByTsDesc l = l.reverse
  | [], _ => rfl
  | e :: es, h => by
    rw [List.pairwise_cons] at h
    simp only [sortByTsDesc, sortByTsDesc_of_ascending es h.2, List.reverse_cons]
    exact insertByTs_eq_append e es.reverse fun f hf =>
      Nat.lt_asymm (h.1 f (List.mem_reverse.1 hf))

/-- C8: when the wall clock is strictly increasing across inserts (each
history entry is newer than all earlier ones), `recent_history n` returns up
to n entries, newest-first (the reverse of insertion order, truncated to n),
and the empty log yields an empty sequence, not an error. -/
theorem recent_history_newest_first (n : Nat) (db : DB)
    (h : db.historico.Pairwise fun u v => u.timestamp < v.timestamp) :
    recent_history n db = db.historico.reverse.take n ∧
    (recent_history n db).length ≤ n ∧
    (db.historico = [] → recent_history n db = []) := by
  have hs := sortByTsDesc_of_ascending db.historico h
  refine ⟨by rw [recent_history, hs], ?_, ?_⟩
  · rw [recent_history, List.length_take]
    exact min_le_left _ _
  · intro he
    simp [recent_history, he, sortByTsDesc]

/-- Witness for C8: after storing BR-101 then BR-116 for 2023, the two
descriptions come back newest-first. -/
theorem recent_history_newest_first_witness :
    recent_history 10 dbEx = [⟨2, "BR-116 (2023)"⟩, ⟨1, "BR-101 (2023)"⟩] := by
  have h := (recent_history_newest_first 10 dbEx (by decide)).1
  rw [h]
  decide

/-! ### Fetcher claim theorems -/

/-- C1: for every year outside [2000, current_year] and every road id
outside [1, 999], the fetcher fails with a `ValueError` (InvalidInput) and
its effect trace is empty — no directory is created and no network call is
attempted. -/
theorem fetch_invalid_input (ano br : Int) (env : Env)
    (h : ano < 2000 ∨ ano > env.currentYear ∨ br < 1 ∨ br > 999) :
    (∃ msg, (baixar_dados_dnit ano br env).1 = .error (.valueError msg)) ∧
    (baixar_dados_dnit ano br env).2 = [] := by
  obtain ⟨msg, hv⟩ : ∃ msg, fetchValidate ano br env.currentYear = some (.valueError msg) := by
    unfold fetchValidate
    split_ifs with h1 h2
    · exact ⟨_, rfl⟩
    · exact ⟨_, rfl⟩
    · exfalso
      rcases h with h | h | h | h
      · exact h1 (Or.inr (Or.inl h))
      · exact h1 (Or.inr (Or.inr h))
      · exact h2 (Or.inl (by omega))
      · exact h2 (Or.inr h)
  constructor
  · exact ⟨msg, by simp [baixar_dados_dnit, hv]⟩
  · simp [baixar_dados_dnit, hv]

/-- Witness for C1 at year 1999 in a healthy environment. -/
theorem fetch_invalid_input_witness :
    (∃ msg, (baixar_dados_dnit 1999 101 envBase).1 = .error (.valueError msg)) ∧
    (baixar_dados_dnit 1999 101 envBase).2 = [] :=
  fetch_invalid_input 1999 101 envBase (Or.inl (by decide))

/-- C9: when the server answers HTTP 404 to a fetch of (2023, 101) — for
every current year ≥ 2023, content type, write outcome, archive content and
parse outcome, with directory creation succeeding — the result is a
`FileNotFoundError` (NotFound) whose message contains "BR-101 (2023)", and
the effect trace contains no file write: nothing under the zip directory is
touched. -/
theorem fetch_404_not_found (cy : Int) (ct : String) (w : Bool)
    (zn : Option (List String)) (cv : CsvOutcome) (hy : 2023 ≤ cy) :
    (baixar_dados_dnit 2023 101 ⟨cy, .ok, .ok, .resp ⟨404, ct⟩, w, zn, cv⟩).1
      = .error (.fileNotFoundError "Dados para BR-101 (2023) não encontrados no servidor.") ∧
    isInfixB "BR-101 (2023)".data
      "Dados para BR-101 (2023) não encontrados no servidor.".data = true ∧
    ∀ p, Effect.writeFileEff p
        ∉ (baixar_dados_dnit 2023 101 ⟨cy, .ok, .ok, .resp ⟨404, ct⟩, w, zn, cv⟩).2 := by
  have hv1 : ¬((toString (2023 : Int)).length ≠ 4 ∨ (2023 : Int) < 2000 ∨
      (2023 : Int) > cy) := by
    push_neg
    exact ⟨by decide, by decide, by omega⟩
  have hv2 : ¬((101 : Int) ≤ 0 ∨ (101 : Int) > 999) := by decide
  have hv : fetchValidate 2023 101 cy = none := by
    unfold fetchValidate
    rw [if_neg hv1, if_neg hv2]
  have key : baixar_dados_dnit 2023 101 ⟨cy, .ok, .ok, .resp ⟨404, ct⟩, w, zn, cv⟩ =
      (.error (.fileNotFoundError "Dados para BR-101 (2023) não encontrados no servidor."),
       [Effect.mkdirEff "data/raw/2023/BR-101/arquivos_zip",
        Effect.mkdirEff "data/raw/2023/BR-101/arquivos_csv",
        Effect.httpGetEff "https://servicos.dnit.gov.br/dadospnct/arquivos/pnct_2023_101.zip"]) := by
    unfold baixar_dados_dnit
    rw [hv]
    rfl
  refine ⟨by rw [key], by decide, ?_⟩
  intro p hp
  rw [key] at hp
  simp at hp

/-- Witness for C9 in the concrete 404 environment. -/
theorem fetch_404_not_found_witness :
    (baixar_dados_dnit 2023 101 env404).1
      = .error (.fileNotFoundError "Dados para BR-101 (2023) não encontrados no servidor.") ∧
    ∀ p, Effect.writeFileEff p ∉ (baixar_dados_dnit 2023 101 env404).2 := by
  have h := fetch_404_not_found 2024 "text/html" true (some ["dados.csv"]) (.ok dfEx)
    (by decide)
  exact ⟨h.1, h.2.2⟩

end Rodovias
